import Mathlib

/-!
Shallow embedding of the toolchain-probing layer of cargo-autobuild
(src/tests.rs): the executable locator `which_any`, the target-resolution and
artifact-naming prober `find_rustc_target`, and the probing driver
`find_compiler` with its version/identity parser and build-and-run validator.

External effects (environment variables, the filesystem, child processes) are
supplied by a deterministic `World` oracle; every function returns its result
together with the ordered list of effect events it performed.  A `none` result
models a Rust panic or divergence (the `unwrap` on `Path::file_name`, or an
unbounded symlink chain).

String manipulation is re-implemented structurally over `List Char` so that
every definition reduces in the kernel (Rust's `split`, `find`, `get(1..)`,
`starts_with` and `parse::<i32>` semantics are mirrored exactly).
-/

namespace Autobuild

/-- Split a character list at every occurrence of `c`, keeping empty pieces,
mirroring Rust `str::split(c)` (which yields one piece even for `""` and keeps
leading/trailing empties). -/
def splitChAux (c : Char) : List Char → List Char → List (List Char)
  | [], acc => [acc.reverse]
  | x :: xs, acc =>
    if x = c then acc.reverse :: splitChAux c xs []
    else splitChAux c xs (x :: acc)

/-- Rust `str::split(c)` on a `String`. -/
def splitOnCh (c : Char) (s : String) : List String :=
  (splitChAux c s.data []).map fun l => ⟨l⟩

/-- Rust `pat.is_prefix_of` check used below, as `str::starts_with`. -/
def startsWithL (pat s : String) : Bool :=
  pat.data.isPrefixOf s.data

/-- The substring of `s` starting at the first `'.'` (the dot included), or
`""` when no dot occurs: Rust `s.find(".").map(|u| s[u..]).unwrap_or_default()`. -/
def dotSuffixAux : List Char → List Char
  | [] => []
  | c :: cs => if c = '.' then c :: cs else dotSuffixAux cs

def dotSuffix (s : String) : String :=
  ⟨dotSuffixAux s.data⟩

/-- The part of `s` before the first occurrence of `pat`, or `none` when `pat`
does not occur: Rust `s.find(pat).map(|u| s[..u])`. -/
def beforeSub (pat : List Char) : List Char → Option (List Char)
  | [] => if pat.isPrefixOf ([] : List Char) then some [] else none
  | c :: cs =>
    if pat.isPrefixOf (c :: cs) then some []
    else (beforeSub pat cs).map (c :: ·)

/-- Rust `s.find("comptest").map(|u| s[..u]).unwrap_or_default()`. -/
def comptestPre (s : String) : String :=
  match beforeSub "comptest".data s.data with
  | some l => ⟨l⟩
  | none => ""

/-- Accumulate a decimal digit string; `none` on any non-digit. -/
def digitsValAux : List Char → Nat → Option Nat
  | [], acc => some acc
  | c :: cs, acc =>
    if c.isDigit then digitsValAux cs (acc * 10 + (c.toNat - 48)) else none

/-- Value of a non-empty all-digit string; `none` otherwise. -/
def digitsVal : List Char → Option Nat
  | [] => none
  | l => digitsValAux l 0

/-- Rust `str::parse::<i32>()`: optional sign, at least one digit, error on
overflow past the 32-bit signed bounds. -/
def parseI32 (s : String) : Option Int :=
  match s.data with
  | '+' :: rest =>
    (digitsVal rest).bind fun n =>
      if n ≤ 2147483647 then some (n : Int) else none
  | '-' :: rest =>
    (digitsVal rest).bind fun n =>
      if n ≤ 2147483648 then some (-(n : Int)) else none
  | l =>
    (digitsVal l).bind fun n =>
      if n ≤ 2147483647 then some (n : Int) else none

/-- Rust `str::get(1..)`: the tail after the first byte, defined only when
byte offset 1 is a character boundary (the first character is one byte). -/
def strGet1 (s : String) : Option String :=
  match s.data with
  | [] => none
  | c :: rest => if c.utf8Size = 1 then some ⟨rest⟩ else none

/-! ## Error and result types (std::io::Error kinds used by tests.rs) -/

inductive ErrorKind where
  | notFound
  | unsupported
  | invalidData
deriving DecidableEq, Repr

structure IOErr where
  kind : ErrorKind
  msg : String
deriving DecidableEq, Repr

/-- `std::io::Result`, with a decidable-equality-friendly shape. -/
inductive RRes (α : Type) where
  | ok (a : α)
  | err (e : IOErr)
deriving DecidableEq, Repr

def RRes.map {α β : Type} (f : α → β) : RRes α → RRes β
  | .ok a => .ok (f a)
  | .err e => .err e

/-! ## Version records (tests.rs lines 67-81) -/

inductive RustcChannel where
  | stable
  | beta
  | nightly
  | dev
  | unstable
deriving DecidableEq, Repr

structure RustcVersion where
  prgname : String
  major : Int
  minor : Int
  patch : Int
  channel : RustcChannel
deriving DecidableEq, Repr

/-- Uniform error for every failure of the version query
(`"Cannot determine the version of {}"`). -/
def verErr (disp : String) : IOErr :=
  ⟨.unsupported, "Cannot determine the version of " ++ disp⟩

/-- The identity-resolution steps of `find_compiler` (tests.rs lines 762-856):
the first token is an override candidate unless it equals `"rustc"`; an
optional third token, stripped of its first byte only (`paren.get(1..)`),
overrides to `"mrust"` when the remainder is exactly `"mrustc"` and to
`"lcrustc"` when it is exactly `"lccc"`; the final identity defaults to
`"rustc"`. -/
def resolveIdentity (name : String) (tok3 : Option String) : String :=
  let prg0 : Option String := if name ≠ "rustc" then some name else none
  let prg1 : Option String :=
    match tok3 with
    | some paren =>
      match strGet1 paren with
      | some "mrustc" => some "mrust"
      | some "lccc" => some "lcrustc"
      | _ => prg0
    | none => prg0
  match prg1 with
  | some s => s
  | none => "rustc"

/-- The version-line parser inside `find_compiler` (tests.rs lines 755-868):
split on spaces; token 2 splits on `'.'` into major, minor and a tail whose
`'-'`-split yields patch and an optional channel tag (`beta`/`nightly`/other
→ Dev, absent → Stable); identity resolution per `resolveIdentity`; finally
the channel is forced to Unstable when the identity starts with `"lc"`. -/
def parseVersionLine (disp line : String) : RRes RustcVersion :=
  let components := splitOnCh ' ' line
  match components[0]? with
  | none => .err (verErr disp)
  | some name =>
    match components[1]? with
    | none => .err (verErr disp)
    | some ver =>
      let parts := splitOnCh '.' ver
      match parts[0]? with
      | none => .err (verErr disp)
      | some s0 =>
        match parseI32 s0 with
        | none => .err (verErr disp)
        | some major =>
          match parts[1]? with
          | none => .err (verErr disp)
          | some s1 =>
            match parseI32 s1 with
            | none => .err (verErr disp)
            | some minor =>
              match parts[2]? with
              | none => .err (verErr disp)
              | some tail =>
                let pandc := splitOnCh '-' tail
                match pandc[0]? with
                | none => .err (verErr disp)
                | some sp =>
                  match parseI32 sp with
                  | none => .err (verErr disp)
                  | some patch =>
                    let channel0 : RustcChannel :=
                      match pandc[1]? with
                      | some "beta" => .beta
                      | some "nightly" => .nightly
                      | some _ => .dev
                      | none => .stable
                    let prgname := resolveIdentity name components[2]?
                    let channel :=
                      if startsWithL "lc" prgname then RustcChannel.unstable
                      else channel0
                    .ok ⟨prgname, major, minor, patch, channel⟩

/-! ## The effect oracle and event traces -/

/-- A child-process invocation: program path and argument list. -/
structure Cmd where
  prog : String
  args : List String
deriving DecidableEq, Repr

/-- Outcome of a child process: it ran (with an exit status and captured
standard-output lines), or spawning failed at the I/O level. -/
inductive ExecOutcome where
  | ran (exitSuccess : Bool) (stdout : List String)
  | ioFail (e : IOErr)
deriving DecidableEq, Repr

/-- A filesystem entry as observed by `symlink_metadata`. -/
inductive FsObj where
  | symlink (tgt : String)
  | file
  | dir
deriving DecidableEq, Repr

/-- State of one environment variable: present and valid Unicode, present but
not valid Unicode (carrying a stand-in rendering of the OS string), or unset. -/
inductive EnvVal where
  | str (s : String)
  | notUnicode (s : String)
  | absent
deriving DecidableEq, Repr

/-- Deterministic oracle for every external effect the engine performs.
`linkFuel` bounds symlink-chain following (the Rust loop diverges on a cyclic
chain; exceeding the bound models that divergence as a `none` result). -/
structure World where
  env : String → EnvVal
  fs : String → Option FsObj
  exec : Cmd → ExecOutcome
  writeErr : String → Option IOErr
  linkFuel : Nat

/-- Ordered trace of the effects performed, labelled by call site:
`runBinary` is the `Command::new(&output_file).status()` site of the
build-and-run validator, `spawn` every other child-process invocation. -/
inductive Event where
  | statPath (p : String)
  | readLinkP (p : String)
  | fsWrite (p : String) (content : String)
  | spawn (c : Cmd)
  | runBinary (p : String)
deriving DecidableEq, Repr

def isRunBinary : Event → Bool
  | .runBinary _ => true
  | _ => false

/-- `std::fs::symlink_metadata`: NotFound when the entry is absent. -/
def statFs (w : World) (p : String) : RRes FsObj :=
  match w.fs p with
  | some o => .ok o
  | none => .err ⟨.notFound, "No such file or directory"⟩

/-- `std::fs::read_link`. -/
def readLinkFs (w : World) (p : String) : RRes String :=
  match w.fs p with
  | some (.symlink t) => .ok t
  | _ => .err ⟨.notFound, "No such file or directory"⟩

/-! ## which_any (tests.rs lines 7-28) -/

/-- The `while meta.file_type().is_symlink()` loop of `which_any`
(tests.rs lines 14-17): re-read the link target and re-stat until a non-link
entry is reached.  `none` models divergence on a chain longer than the fuel. -/
def followLinks (w : World) : Nat → String → FsObj →
    Option (RRes String) × List Event
  | _, p, .file => (some (.ok p), [])
  | _, p, .dir => (some (.ok p), [])
  | 0, _, .symlink _ => (none, [])
  | fuel + 1, p, .symlink _ =>
    match readLinkFs w p with
    | .err e => (some (.err e), [.readLinkP p])
    | .ok p2 =>
      match statFs w p2 with
      | .err e => (some (.err e), [.readLinkP p, .statPath p2])
      | .ok o2 =>
        let (r, evs) := followLinks w fuel p2 o2
        (r, .readLinkP p :: .statPath p2 :: evs)

/-- One `(directory, candidate)` probe of the inner loop of `which_any`
(tests.rs lines 11-20).  `ok (some p)` means found (early return), `ok none`
means this pair resolved but does not exist, keep searching.  Note the source
propagates the `symlink_metadata` error with `?` instead of skipping the
candidate. -/
def probeOne (w : World) (dir stem : String) :
    Option (RRes (Option String)) × List Event :=
  let path := dir ++ "/" ++ stem
  match statFs w path with
  | .err e => (some (.err e), [.statPath path])
  | .ok obj =>
    match followLinks w w.linkFuel path obj with
    | (none, evs) => (none, .statPath path :: evs)
    | (some (.err e), evs) => (some (.err e), .statPath path :: evs)
    | (some (.ok p), evs) =>
      if (w.fs p).isSome then (some (.ok (some p)), .statPath path :: evs)
      else (some (.ok none), .statPath path :: evs)

/-- Inner loop over candidate names within one directory. -/
def whichAnyNames (w : World) (dir : String) :
    List String → Option (RRes (Option String)) × List Event
  | [] => (some (.ok none), [])
  | stem :: rest =>
    match probeOne w dir stem with
    | (some (.ok none), evs) =>
      let (r, evs2) := whichAnyNames w dir rest
      (r, evs ++ evs2)
    | other => other

/-- Outer loop over the directories of the path list. -/
def whichAnyDirs (w : World) (names : List String) :
    List String → Option (RRes String) × List Event
  | [] => (some (.err ⟨.notFound, "Cannot find files"⟩), [])
  | dir :: rest =>
    match whichAnyNames w dir names with
    | (some (.ok (some p)), evs) => (some (.ok p), evs)
    | (some (.ok none), evs) =>
      let (r, evs2) := whichAnyDirs w names rest
      (r, evs ++ evs2)
    | (some (.err e), evs) => (some (.err e), evs)
    | (none, evs) => (none, evs)

/-- `which_any` (tests.rs lines 7-28): read `PATH` (any lookup failure maps to
NotFound), split it on `':'`, and search each directory for each candidate in
order. -/
def whichAny (w : World) (names : List String) :
    Option (RRes String) × List Event :=
  match w.env "PATH" with
  | .str s => whichAnyDirs w names (splitOnCh ':' s)
  | .notUnicode _ =>
    (some (.err ⟨.notFound, "environment variable was not valid unicode"⟩), [])
  | .absent =>
    (some (.err ⟨.notFound, "environment variable not found"⟩), [])

/-! ## Target triples (modelled from the spec) -/

/-- Join non-empty components with `'-'`. -/
def joinDash : List String → String
  | [] => ""
  | [s] => s
  | s :: rest => s ++ "-" ++ joinDash rest

/-- Modelled from the spec: the `target_tuples` crate is not part of this
repository's sources.  Per §3 of the spec, a Target Triple is an opaque
structured identifier (architecture, vendor, operating system,
environment/ABI, object format) with two textual renderings — a short
canonical name (`get_name`) and a full canonical string (`to_string`) — plus
component accessors; it is immutable once constructed. -/
structure Target where
  arch : String
  vendor : String
  os : Option String
  env : Option String
  objfmt : Option String
  shortName : String
deriving DecidableEq, Repr

/-- Modelled from the spec: the full canonical string rendering of a triple
(`Target::to_string`), joining the present components with `'-'`. -/
def Target.canonicalString (t : Target) : String :=
  joinDash ([t.arch, t.vendor] ++ t.os.toList ++ t.env.toList ++ t.objfmt.toList)

/-- Modelled from the spec: the vendor-normalized variant — vendor forced to
`"unknown"`, all other components preserved (`Target::from_components` with
`Vendor::Unknown`, tests.rs lines 540-546). -/
def Target.vendorNormalized (t : Target) : Target :=
  let t1 : Target :=
    { arch := t.arch, vendor := "unknown", os := t.os, env := t.env
      objfmt := t.objfmt, shortName := "" }
  { t1 with shortName := t1.canonicalString }

/-- `std::path::Path::file_name` on the string rendering of a path: the last
`'/'`-separated component, skipping empty and `"."` components; `none` for an
empty or root path or when the path terminates in `".."`. -/
def pathFileName (p : String) : Option String :=
  let comps := (splitOnCh '/' p).filter fun c => c != "" && c != "."
  match comps.getLast? with
  | none => none
  | some c => if c = ".." then none else some c

/-! ## find_rustc_target (tests.rs lines 83-705) -/

/-- The `Unsupported` error raised when a file-name probe reported fewer than
six lines (`"Could not determine file names from invoking {}"`). -/
def fnErr (disp : String) : IOErr :=
  ⟨.unsupported, "Could not determine file names from invoking " ++ disp⟩

/-- The naming record (tests.rs lines 43-57).  Library-kind field names ending
in `_pre` embed the source's corresponding `_prefix` fields. -/
structure RustcTargetInfo where
  target : String
  exe_suffix : String
  rlib_pre : String
  rlib_suffix : String
  dylib_pre : String
  dylib_suffix : String
  staticlib_pre : String
  staticlib_suffix : String
  cdylib_pre : String
  cdylib_suffix : String
  procmacro_pre : String
  procmacro_suffix : String
deriving DecidableEq, Repr

/-- The six-line `--print file-names` output parsing repeated in every branch
of `find_rustc_target` (e.g. tests.rs lines 111-235): line order is
executable, rlib, dylib, staticlib, cdylib, proc-macro; the executable
contributes only a suffix (from the first `'.'`), each library kind a prefix
(before the first `"comptest"`) and a suffix (from the first `'.'`); a missing
line is an Unsupported error naming the compiler path. -/
def parseFileNames (disp tname : String) (ls : List String) :
    RRes RustcTargetInfo :=
  match ls[0]? with
  | none => .err (fnErr disp)
  | some exename =>
    match ls[1]? with
    | none => .err (fnErr disp)
    | some rlibname =>
      match ls[2]? with
      | none => .err (fnErr disp)
      | some dylibname =>
        match ls[3]? with
        | none => .err (fnErr disp)
        | some staticlibname =>
          match ls[4]? with
          | none => .err (fnErr disp)
          | some cdylibname =>
            match ls[5]? with
            | none => .err (fnErr disp)
            | some procmacroname =>
              .ok
                { target := tname
                  exe_suffix := dotSuffix exename
                  rlib_pre := comptestPre rlibname
                  rlib_suffix := dotSuffix rlibname
                  dylib_pre := comptestPre dylibname
                  dylib_suffix := dotSuffix dylibname
                  staticlib_pre := comptestPre staticlibname
                  staticlib_suffix := dotSuffix staticlibname
                  cdylib_pre := comptestPre cdylibname
                  cdylib_suffix := dotSuffix cdylibname
                  procmacro_pre := comptestPre procmacroname
                  procmacro_suffix := dotSuffix procmacroname }

/-- Argument list of a file-name probe invocation: the flag string split on
spaces, the fixed crate name and the six crate types, an optional `--target`
argument, then `--print file-names` and the scratch source path. -/
def probeArgs (flags : String) (targetArg : Option String) (file : String) :
    List String :=
  splitOnCh ' ' flags ++
    ["--crate-name", "comptest", "--crate-type",
     "bin,rlib,dylib,staticlib,cdylib,proc-macro"] ++
    (match targetArg with
     | some t => ["--target", t]
     | none => []) ++
    ["--print", "file-names", file]

/-- `find_rustc_target` (tests.rs lines 83-705).  Result: `none` models the
panic of `rustc.file_name().unwrap()` on a path with no file name; otherwise
the parsed naming record is paired with the final value of the mutable flag
string (appended to even when the subsequent line parsing errors out).

Faithful to the source, the fourth fallback attempt constructs the
vendor-normalized triple `ntarget` but still passes `target.to_string()` as
the `--target` argument (tests.rs line 555), while recording
`ntarget.to_string()` on success (lines 564-566). -/
def findRustcTarget (w : World) (rustc flags file : String) (t : Target) :
    Option (RRes RustcTargetInfo × String) × List Event :=
  match pathFileName rustc with
  | none => (none, [])
  | some fname =>
    if startsWithL t.shortName fname then
      let c1 : Cmd := ⟨rustc, probeArgs flags none file⟩
      match w.exec c1 with
      | .ran true out =>
        (some (parseFileNames rustc t.shortName out, flags), [.spawn c1])
      | .ran false _ =>
        (some (.err ⟨.unsupported, "Cannot execute " ++ rustc⟩, flags),
         [.spawn c1])
      | .ioFail e => (some (.err e, flags), [.spawn c1])
    else
      let c2 : Cmd := ⟨rustc, probeArgs flags (some t.shortName) file⟩
      match w.exec c2 with
      | .ran true out =>
        (some (parseFileNames rustc t.shortName out,
               flags ++ " --target " ++ t.shortName),
         [.spawn c2])
      | .ioFail e => (some (.err e, flags), [.spawn c2])
      | .ran false _ =>
        let c3 : Cmd := ⟨rustc, probeArgs flags (some t.canonicalString) file⟩
        match w.exec c3 with
        | .ran true out =>
          (some (parseFileNames rustc t.canonicalString out,
                 flags ++ " --target " ++ t.canonicalString),
           [.spawn c2, .spawn c3])
        | .ioFail e => (some (.err e, flags), [.spawn c2, .spawn c3])
        | .ran false _ =>
          let nt := t.vendorNormalized
          let c4 : Cmd := ⟨rustc, probeArgs flags (some t.canonicalString) file⟩
          match w.exec c4 with
          | .ran true out =>
            (some (parseFileNames rustc nt.canonicalString out,
                   flags ++ " --target " ++ nt.canonicalString),
             [.spawn c2, .spawn c3, .spawn c4])
          | .ioFail e => (some (.err e, flags), [.spawn c2, .spawn c3, .spawn c4])
          | .ran false _ =>
            (some (.err ⟨.unsupported,
                    "Could not determine how to compile for " ++ t.shortName ++
                      " using " ++ rustc⟩, flags),
             [.spawn c2, .spawn c3, .spawn c4])

/-! ## find_compiler (tests.rs lines 707-957) -/

/-- The toolchain description produced by a successful probing session
(tests.rs lines 59-65). -/
structure RustcTestsResult where
  rustc : String
  rustflags : List String
  no_std : Bool
  version : RustcVersion
  target_info : RustcTargetInfo
deriving DecidableEq, Repr

/-- Scratch source written before the full-binary validation
(tests.rs lines 737-743). -/
def comptestSrc1 : String := "\nfn main()\x7b\x7d\n\n"

/-- Freestanding scratch source written before the library-only fallback
(tests.rs lines 910-915). -/
def comptestSrc2 : String := "\n#![no_std]\n"

/-- Extra-flags resolution of `find_compiler` (tests.rs lines 714-718):
the variable's value when present, the default `"-O -g"` when absent, and an
InvalidData error when present but not valid Unicode. -/
def flagsLookup (v : EnvVal) : RRes String :=
  match v with
  | .str s => .ok s
  | .absent => .ok "-O -g"
  | .notUnicode _ =>
    .err ⟨.invalidData, "environment variable was not valid unicode"⟩

/-- Compiler-path resolution of `find_compiler` (tests.rs lines 720-729):
`std::env::var_os(var)` (which returns even a non-Unicode OS string verbatim),
falling back to `which_any` over the four candidate names. -/
def rustcLookup (w : World) (var : String) (t : Target) :
    Option (RRes String) × List Event :=
  match w.env var with
  | .str s => (some (.ok s), [])
  | .notUnicode s => (some (.ok s), [])
  | .absent =>
    whichAny w ["rustc", "lcrustc", t.shortName ++ "-gccrs", "gccrs"]

/-- `find_compiler` (tests.rs lines 707-957): resolve extra flags from the
environment (absent → `"-O -g"`, non-Unicode → InvalidData), resolve the
compiler path from the override variable or via `which_any`, write the scratch
source, run `find_rustc_target`, query and parse the version line, then
validate: compile a full binary (running it and requiring exit 0 unless
cross-compiling), and on build failure fall back to a freestanding
static-link-library compile.  Faithful to the source, both success paths
return `no_std := false` (tests.rs lines 904 and 944). -/
def findCompiler (w : World) (var flagsVar : String) (t : Target)
    (crossCompiling : Bool) (tmpdir : String) :
    Option (RRes RustcTestsResult) × List Event :=
  match flagsLookup (w.env flagsVar) with
  | .err e => (some (.err e), [])
  | .ok flags =>
    match rustcLookup w var t with
    | (none, evs0) => (none, evs0)
    | (some (.err e), evs0) => (some (.err e), evs0)
    | (some (.ok rustc), evs0) =>
      let comptestPath := tmpdir ++ "/" ++ "comptest.rs"
      let evs1 := evs0 ++ [.fsWrite comptestPath comptestSrc1]
      match w.writeErr comptestPath with
      | some e => (some (.err e), evs1)
      | none =>
        match findRustcTarget w rustc flags comptestPath t with
        | (none, evsT) => (none, evs1 ++ evsT)
        | (some (.err e, _), evsT) => (some (.err e), evs1 ++ evsT)
        | (some (.ok targ, flags2), evsT) =>
          let cver : Cmd := ⟨rustc, ["--version"]⟩
          let evs2 := evs1 ++ evsT ++ [.spawn cver]
          match w.exec cver with
          | .ioFail e => (some (.err e), evs2)
          | .ran _ out =>
            match out[0]? with
            | none => (some (.err (verErr rustc)), evs2)
            | some line =>
              match parseVersionLine rustc line with
              | .err e => (some (.err e), evs2)
              | .ok version =>
                let outputFile :=
                  tmpdir ++ "/" ++ ("comptest" ++ targ.exe_suffix)
                let cbin : Cmd :=
                  ⟨rustc, splitOnCh ' ' flags2 ++
                    ["--crate-type", "bin", "--emit",
                     "link=" ++ outputFile, "--crate-name", "comptest",
                     comptestPath]⟩
                let evs3 := evs2 ++ [.spawn cbin]
                match w.exec cbin with
                | .ioFail e => (some (.err e), evs3)
                | .ran true _ =>
                  if crossCompiling then
                    (some (.ok
                      { rustc := rustc, rustflags := splitOnCh ' ' flags2
                        no_std := false, version := version
                        target_info := targ }), evs3)
                  else
                    let evs4 := evs3 ++ [.runBinary outputFile]
                    match w.exec ⟨outputFile, []⟩ with
                    | .ioFail e => (some (.err e), evs4)
                    | .ran true _ =>
                      (some (.ok
                        { rustc := rustc, rustflags := splitOnCh ' ' flags2
                          no_std := false, version := version
                          target_info := targ }), evs4)
                    | .ran false _ =>
                      (some (.err ⟨.unsupported,
                        "Cannot execute binaries produced by " ++ rustc⟩),
                       evs4)
                | .ran false _ =>
                  let evs4 := evs3 ++ [.fsWrite comptestPath comptestSrc2]
                  match w.writeErr comptestPath with
                  | some e => (some (.err e), evs4)
                  | none =>
                    let outputFile2 :=
                      tmpdir ++ "/" ++
                        (targ.rlib_pre ++ "comptest" ++ targ.rlib_suffix)
                    let crlib : Cmd :=
                      ⟨rustc, splitOnCh ' ' flags2 ++
                        ["--crate-type", "rlib", "--emit",
                         "link=" ++ outputFile2, "--crate-name", "comptest",
                         comptestPath]⟩
                    let evs5 := evs4 ++ [.spawn crlib]
                    match w.exec crlib with
                    | .ioFail e => (some (.err e), evs5)
                    | .ran true _ =>
                      (some (.ok
                        { rustc := rustc, rustflags := splitOnCh ' ' flags2
                          no_std := false, version := version
                          target_info := targ }), evs5)
                    | .ran false _ =>
                      (some (.err ⟨.unsupported,
                        "Cannot compile simple test program with " ++ rustc⟩),
                       evs5)

/-- No event of the trace is an execution of a produced binary. -/
def noRunEvents (evs : List Event) : Bool := evs.all fun e => !isRunBinary e

/-! ## Concrete probing sessions used as test vectors -/

/-- Six predicted file names as a host rustc reports them for the probe crate. -/
def sixLines : List String :=
  ["comptest", "libcomptest.rlib", "libcomptest.so", "libcomptest.a",
   "libcomptest.so", "libcomptest.so"]

/-- A host-style triple whose vendor is already `"unknown"`. -/
def hostTarget : Target :=
  ⟨"x86_64", "unknown", some "linux", some "gnu", none,
   "x86_64-unknown-linux-gnu"⟩

/-- A triple with vendor `"pc"`, distinct from its vendor-normalized form. -/
def pcTarget : Target :=
  ⟨"x86_64", "pc", some "linux", some "gnu", none, "x86_64-pc-linux-gnu"⟩

/-- A compiler that answers every file-name probe and the version query,
fails every full-binary compile, and succeeds at every other compile. -/
def execNoStd : Cmd → ExecOutcome := fun c =>
  if c.args = ["--version"] then .ran true ["rustc 1.70.0"]
  else if c.args.contains "--print" then .ran true sixLines
  else if c.args.contains "bin" then .ran false []
  else .ran true []

/-- Session in which the full-binary compile fails but the freestanding
rlib recompile succeeds. -/
def worldNoStd : World :=
  { env := fun n => if n = "RUSTC" then .str "/usr/bin/rustc" else .absent
    fs := fun _ => none
    exec := execNoStd
    writeErr := fun _ => none
    linkFuel := 8 }

/-- Path list `/a:/b` where the candidate is absent from `/a` but present
in `/b`. -/
def worldTwoDirs : World :=
  { env := fun n => if n = "PATH" then .str "/a:/b" else .absent
    fs := fun p => if p = "/b/rustc" then some .file else none
    exec := fun _ => .ran false []
    writeErr := fun _ => none
    linkFuel := 8 }

/-- Session in which every child process exits with a failure status. -/
def worldAllFail : World :=
  { env := fun _ => .absent
    fs := fun _ => none
    exec := fun _ => .ran false []
    writeErr := fun _ => none
    linkFuel := 8 }

/-- A compiler whose compiles and probes all succeed, but whose produced
binary (invoked with no arguments) exits with a failure status. -/
def execRunFails : Cmd → ExecOutcome := fun c =>
  if c.args = ["--version"] then .ran true ["rustc 1.70.0"]
  else if c.args.contains "--print" then .ran true sixLines
  else if c.args = [] then .ran false []
  else .ran true []

/-- Session in which the build succeeds and the produced binary fails to
run. -/
def worldRunFails : World :=
  { env := fun n => if n = "RUSTC" then .str "/usr/bin/rustc" else .absent
    fs := fun _ => none
    exec := execRunFails
    writeErr := fun _ => none
    linkFuel := 8 }

/-- Session in which every environment variable is present but not valid
Unicode. -/
def worldBadFlags : World :=
  { env := fun _ => .notUnicode "bad"
    fs := fun _ => none
    exec := fun _ => .ran false []
    writeErr := fun _ => none
    linkFuel := 8 }

/-! ## Trace lemmas: the only call site emitting `runBinary` is the
build-and-run validator's non-cross-compiling branch -/

theorem noRunEvents_append (l1 l2 : List Event) :
    noRunEvents (l1 ++ l2) = (noRunEvents l1 && noRunEvents l2) := by
  simp [noRunEvents]

theorem followLinks_noRun (w : World) :
    ∀ fuel p o, noRunEvents (followLinks w fuel p o).2 = true := by
  intro fuel
  induction fuel with
  | zero => intro p o; cases o <;> simp [followLinks, noRunEvents, isRunBinary]
  | succ n ih =>
    intro p o
    cases o <;> simp only [followLinks]
    case symlink tgt =>
      split
      · simp [noRunEvents, isRunBinary]
      · split
        · simp [noRunEvents, isRunBinary]
        · simp only [noRunEvents, List.all_cons, isRunBinary, Bool.not_false,
            Bool.true_and]
          exact ih _ _
    · simp [noRunEvents, isRunBinary]
    · simp [noRunEvents, isRunBinary]

theorem probeOne_noRun (w : World) (dir stem : String) :
    noRunEvents (probeOne w dir stem).2 = true := by
  have h1 := followLinks_noRun w w.linkFuel
  simp only [probeOne]
  split
  · simp [noRunEvents, isRunBinary]
  · split
    · rename_i x1 o2 hst x2 evs heq
      have h2 := h1 (dir ++ "/" ++ stem) o2
      rw [heq] at h2
      simpa [noRunEvents, isRunBinary] using h2
    · rename_i x1 o2 hst x2 e evs heq
      have h2 := h1 (dir ++ "/" ++ stem) o2
      rw [heq] at h2
      simpa [noRunEvents, isRunBinary] using h2
    · rename_i x1 o2 hst x2 p evs heq
      have h2 := h1 (dir ++ "/" ++ stem) o2
      rw [heq] at h2
      split <;> simpa [noRunEvents, isRunBinary] using h2

theorem whichAnyNames_noRun (w : World) (dir : String) :
    ∀ names, noRunEvents (whichAnyNames w dir names).2 = true := by
  intro names
  induction names with
  | nil => simp [whichAnyNames, noRunEvents]
  | cons stem rest ih =>
    simp only [whichAnyNames]
    split
    · rename_i x1 evs heq
      have h1 := probeOne_noRun w dir stem
      rw [heq] at h1
      simp only [noRunEvents_append]
      simp only [noRunEvents] at h1 ih ⊢
      simp [h1, ih]
    · rename_i hne
      exact probeOne_noRun w dir stem

theorem whichAnyDirs_noRun (w : World) (names : List String) :
    ∀ dirs, noRunEvents (whichAnyDirs w names dirs).2 = true := by
  intro dirs
  induction dirs with
  | nil => simp [whichAnyDirs, noRunEvents]
  | cons dir rest ih =>
    have h1 := whichAnyNames_noRun w dir names
    simp only [whichAnyDirs]
    split
    · rename_i x1 p evs heq
      rw [heq] at h1
      exact h1
    · rename_i x1 evs heq
      rw [heq] at h1
      simp only [noRunEvents_append]
      simp only [noRunEvents] at h1 ih ⊢
      simp [h1, ih]
    · rename_i x1 e evs heq
      rw [heq] at h1
      exact h1
    · rename_i x1 evs heq
      rw [heq] at h1
      exact h1

theorem whichAny_noRun (w : World) (names : List String) :
    noRunEvents (whichAny w names).2 = true := by
  simp only [whichAny]
  split
  · exact whichAnyDirs_noRun w names _
  · simp [noRunEvents]
  · simp [noRunEvents]

theorem findRustcTarget_noRun (w : World) (rustc flags file : String)
    (t : Target) :
    noRunEvents (findRustcTarget w rustc flags file t).2 = true := by
  simp only [findRustcTarget]
  repeat' split
  all_goals simp [noRunEvents, isRunBinary]

theorem rustcLookup_noRun (w : World) (var : String) (t : Target) :
    noRunEvents (rustcLookup w var t).2 = true := by
  simp only [rustcLookup]
  split
  · simp [noRunEvents]
  · simp [noRunEvents]
  · exact whichAny_noRun w _

theorem findCompiler_cross_noRun (w : World) (var fv : String) (t : Target)
    (d : String) :
    noRunEvents (findCompiler w var fv t true d).2 = true := by
  have hL := rustcLookup_noRun w var t
  simp only [findCompiler]
  split
  · simp [noRunEvents]
  · rename_i x0 flg hfl
    rcases h0 : rustcLookup w var t with ⟨r0, evs0⟩
    rw [h0] at hL
    simp only at hL
    match r0 with
    | none => exact hL
    | some (.err e) => exact hL
    | some (.ok rustc) =>
      simp only []
      cases hw : w.writeErr (d ++ "/" ++ "comptest.rs") with
      | some e =>
        simp only [noRunEvents_append, hL, Bool.true_and]
        simp [noRunEvents, isRunBinary]
      | none =>
        simp only [hw]
        rcases hT : findRustcTarget w rustc flg (d ++ "/" ++ "comptest.rs") t
          with ⟨rT, evsT⟩
        have hTn := findRustcTarget_noRun w rustc flg
          (d ++ "/" ++ "comptest.rs") t
        rw [hT] at hTn
        simp only at hTn
        match rT with
        | none =>
          simp only [noRunEvents_append, hL, hTn, Bool.true_and, Bool.and_true]
          simp [noRunEvents, isRunBinary]
        | some (.err e, fl2) =>
          simp only [noRunEvents_append, hL, hTn, Bool.true_and, Bool.and_true]
          simp [noRunEvents, isRunBinary]
        | some (.ok targ, fl2) =>
          simp only []
          repeat' split
          all_goals try exact absurd trivial ‹¬True›
          all_goals
            simp only [noRunEvents_append, hL, hTn, Bool.true_and,
              Bool.and_true]
          all_goals simp [noRunEvents, isRunBinary]

/-! ## Claims -/

/-- C1: the claim says a session whose full-binary compile fails but whose
freestanding (no_std) rlib recompile succeeds yields a toolchain description
with `no_std = true` and no binary execution.  The source returns
`no_std := false` on that path (tests.rs line 944): in the concrete session
`worldNoStd` the bin compile fails (last conjunct), the rlib compile is
spawned and the session succeeds, no produced binary is ever run, yet the
reported `no_std` field is `false`. -/
theorem find_compiler_nostd_fallback_reports_false :
    ((findCompiler worldNoStd "RUSTC" "RUSTFLAGS" hostTarget false
        "/tmp").1).map (RRes.map RustcTestsResult.no_std) =
      some (.ok false) ∧
    Event.spawn ⟨"/usr/bin/rustc",
        ["-O", "-g", "--target", "x86_64-unknown-linux-gnu", "--crate-type",
         "rlib", "--emit", "link=/tmp/libcomptest.rlib", "--crate-name",
         "comptest", "/tmp/comptest.rs"]⟩ ∈
      (findCompiler worldNoStd "RUSTC" "RUSTFLAGS" hostTarget false
        "/tmp").2 ∧
    noRunEvents
      (findCompiler worldNoStd "RUSTC" "RUSTFLAGS" hostTarget false
        "/tmp").2 = true ∧
    worldNoStd.exec ⟨"/usr/bin/rustc",
        ["-O", "-g", "--target", "x86_64-unknown-linux-gnu", "--crate-type",
         "bin", "--emit", "link=/tmp/comptest", "--crate-name", "comptest",
         "/tmp/comptest.rs"]⟩ = .ran false [] := by
  decide

/-- C2: the claim says a candidate absent from an earlier directory does not
prevent a later (directory, candidate) pair from being returned and NotFound
arises only when the variable is absent or no directory has a candidate.  The
source propagates the `symlink_metadata` NotFound error of the very first
absent candidate (tests.rs line 13 `?`): with `PATH = "/a:/b"` and the
candidate existing only in `/b`, `which_any` stats `/a/rustc` and aborts,
although the probe of `/b` alone would succeed (last conjunct). -/
theorem which_any_aborts_on_first_missing_candidate :
    whichAny worldTwoDirs ["rustc"] =
      (some (.err ⟨.notFound, "No such file or directory"⟩),
       [.statPath "/a/rustc"]) ∧
    worldTwoDirs.fs "/b/rustc" = some .file ∧
    probeOne worldTwoDirs "/b" "rustc" =
      (some (.ok (some "/b/rustc")), [.statPath "/b/rustc"]) := by
  decide

/-- C3: the claim says the fourth fallback attempt invokes the compiler with
`--target` equal to the vendor-normalized triple's full string.  The source
passes `target.to_string()` instead (tests.rs line 555), so in a session
where all attempts fail the three spawned probes are identical, each carrying
`--target x86_64-pc-linux-gnu`, never the vendor-normalized
`x86_64-unknown-linux-gnu` the attempt was meant to try (and would record on
success). -/
theorem find_rustc_target_fourth_attempt_repeats_original_triple :
    (findRustcTarget worldAllFail "/usr/bin/rustc" "-O -g" "/tmp/comptest.rs"
        pcTarget).2 =
      [.spawn ⟨"/usr/bin/rustc",
        ["-O", "-g", "--crate-name", "comptest", "--crate-type",
         "bin,rlib,dylib,staticlib,cdylib,proc-macro", "--target",
         "x86_64-pc-linux-gnu", "--print", "file-names", "/tmp/comptest.rs"]⟩,
       .spawn ⟨"/usr/bin/rustc",
        ["-O", "-g", "--crate-name", "comptest", "--crate-type",
         "bin,rlib,dylib,staticlib,cdylib,proc-macro", "--target",
         "x86_64-pc-linux-gnu", "--print", "file-names", "/tmp/comptest.rs"]⟩,
       .spawn ⟨"/usr/bin/rustc",
        ["-O", "-g", "--crate-name", "comptest", "--crate-type",
         "bin,rlib,dylib,staticlib,cdylib,proc-macro", "--target",
         "x86_64-pc-linux-gnu", "--print", "file-names",
         "/tmp/comptest.rs"]⟩] ∧
    pcTarget.vendorNormalized.canonicalString = "x86_64-unknown-linux-gnu" ∧
    pcTarget.canonicalString = "x86_64-pc-linux-gnu" ∧
    (findRustcTarget worldAllFail "/usr/bin/rustc" "-O -g" "/tmp/comptest.rs"
        pcTarget).1 =
      some (.err ⟨.unsupported,
        "Could not determine how to compile for x86_64-pc-linux-gnu using /usr/bin/rustc"⟩,
        "-O -g") := by
  decide

/-- C4: version parsing round-trips the two known-good inputs:
`"rustc 1.75.0-nightly (abcdef) "` → 1.75.0, Nightly, identity `"rustc"`;
`"lcrustc 1.0.0 (lccc)"` → identity `"lcrustc"`, channel Unstable although
the version string carries no channel tag. -/
theorem version_parsing_round_trips :
    parseVersionLine "/usr/bin/rustc" "rustc 1.75.0-nightly (abcdef) " =
      .ok ⟨"rustc", 1, 75, 0, .nightly⟩ ∧
    parseVersionLine "/usr/bin/lcrustc" "lcrustc 1.0.0 (lccc)" =
      .ok ⟨"lcrustc", 1, 0, 0, .unstable⟩ := by
  decide

/-- C5: for every successfully parsed version line, a final resolved identity
beginning with `"lc"` forces the channel to Unstable, whatever channel token
was parsed and whatever implementation marker was present. -/
theorem lc_identity_forces_unstable_channel :
    ∀ disp line v, parseVersionLine disp line = .ok v →
      startsWithL "lc" v.prgname = true →
      v.channel = RustcChannel.unstable := by
  intro disp line v h hlc
  simp only [parseVersionLine] at h
  repeat' split at h
  all_goals try exact RRes.noConfusion h
  all_goals
    injection h with h'
    subst h'
    simp_all

/-- Witness for C5 at the line `"lcrustc 1.0.0 (lccc)"`. -/
theorem lc_identity_forces_unstable_channel_witness :
    parseVersionLine "p" "lcrustc 1.0.0 (lccc)" =
      .ok ⟨"lcrustc", 1, 0, 0, .unstable⟩ ∧
    startsWithL "lc" "lcrustc" = true ∧
    RustcVersion.channel ⟨"lcrustc", 1, 0, 0, .unstable⟩ =
      RustcChannel.unstable :=
  ⟨by decide, by decide,
   lc_identity_forces_unstable_channel "p" "lcrustc 1.0.0 (lccc)"
     ⟨"lcrustc", 1, 0, 0, .unstable⟩ (by decide) (by decide)⟩

/-- C6: given six output lines in the fixed order, the derived executable
suffix is the substring of the first line from its first `'.'` (empty without
one); each library kind's prefix is the part before the first `"comptest"`
(empty if absent) and its suffix the substring from the first `'.'` (empty if
absent); with fewer than six lines the probe fails with an Unsupported error
naming the compiler path. -/
theorem file_names_probe_derivation :
    (∀ disp tname l0 l1 l2 l3 l4 l5,
      parseFileNames disp tname [l0, l1, l2, l3, l4, l5] =
        .ok { target := tname
              exe_suffix := dotSuffix l0
              rlib_pre := comptestPre l1, rlib_suffix := dotSuffix l1
              dylib_pre := comptestPre l2, dylib_suffix := dotSuffix l2
              staticlib_pre := comptestPre l3
              staticlib_suffix := dotSuffix l3
              cdylib_pre := comptestPre l4, cdylib_suffix := dotSuffix l4
              procmacro_pre := comptestPre l5
              procmacro_suffix := dotSuffix l5 }) ∧
    (∀ disp tname ls, ls.length < 6 →
      parseFileNames disp tname ls =
        .err ⟨.unsupported,
          "Could not determine file names from invoking " ++ disp⟩) := by
  constructor
  · intro disp tname l0 l1 l2 l3 l4 l5
    rfl
  · intro disp tname ls h
    match ls with
    | [] => rfl
    | [_] => rfl
    | [_, _] => rfl
    | [_, _, _] => rfl
    | [_, _, _, _] => rfl
    | [_, _, _, _, _] => rfl
    | _ :: _ :: _ :: _ :: _ :: _ :: _ => simp at h; omega

/-- Witness for C6: the six host file names, and a one-line probe output. -/
theorem file_names_probe_derivation_witness :
    parseFileNames "/usr/bin/rustc" "x86_64-unknown-linux-gnu" sixLines =
      .ok { target := "x86_64-unknown-linux-gnu"
            exe_suffix := ""
            rlib_pre := "lib", rlib_suffix := ".rlib"
            dylib_pre := "lib", dylib_suffix := ".so"
            staticlib_pre := "lib", staticlib_suffix := ".a"
            cdylib_pre := "lib", cdylib_suffix := ".so"
            procmacro_pre := "lib", procmacro_suffix := ".so" } ∧
    parseFileNames "/usr/bin/rustc" "t" ["comptest"] =
      .err ⟨.unsupported,
        "Could not determine file names from invoking /usr/bin/rustc"⟩ :=
  ⟨by decide,
   file_names_probe_derivation.2 "/usr/bin/rustc" "t" ["comptest"]
     (by decide)⟩

/-- C7 counterexample: the claim says a present, parenthesized third token
with payload `"mrustc"` overrides the identity to `"mrust"`.  On the line
`"rustc 1.0.0 (mrustc)"` — third token `"(mrustc)"`, payload `"mrustc"` —
the identity stays `"rustc"`, because the source strips only the leading byte
(`paren.get(1..)`) and compares `"mrustc)"` against `"mrustc"`. -/
theorem paren_marker_with_closing_paren_does_not_override :
    parseVersionLine "/usr/bin/rustc" "rustc 1.0.0 (mrustc)" =
      .ok ⟨"rustc", 1, 0, 0, .stable⟩ ∧
    resolveIdentity "rustc" (some "(mrustc)") = "rustc" := by
  decide

/-- C7 amended: the override comparison uses the third token with only its
first byte removed: remainder exactly `"mrustc"` → identity `"mrust"`,
exactly `"lccc"` → identity `"lcrustc"`, anything else (including the fully
parenthesized `"(mrustc)"`/`"(lccc)"`) leaves the identity as resolved from
the first token; so the override fires for tokens such as `"(mrustc"` — a
parenthesized marker followed by further text. -/
theorem identity_override_compares_tail_after_first_byte :
    (∀ name tok,
      (strGet1 tok = some "mrustc" →
        resolveIdentity name (some tok) = "mrust") ∧
      (strGet1 tok = some "lccc" →
        resolveIdentity name (some tok) = "lcrustc") ∧
      (strGet1 tok ≠ some "mrustc" → strGet1 tok ≠ some "lccc" →
        resolveIdentity name (some tok) = resolveIdentity name none)) ∧
    parseVersionLine "p" "rustc 1.54.0 (mrustc 0.10)" =
      .ok ⟨"mrust", 1, 54, 0, .stable⟩ ∧
    parseVersionLine "p" "rustc 1.0.0 (lccc v2)" =
      .ok ⟨"lcrustc", 1, 0, 0, .unstable⟩ := by
  refine ⟨fun name tok => ⟨fun h => ?_, fun h => ?_, fun h1 h2 => ?_⟩,
    by decide, by decide⟩
  · simp [resolveIdentity, h]
  · simp [resolveIdentity, h]
  · simp only [resolveIdentity]

/-- Witness for C7's amended statement at the three token shapes. -/
theorem identity_override_tail_witness :
    resolveIdentity "rustc" (some "(mrustc") = "mrust" ∧
    resolveIdentity "rustc" (some "(lccc") = "lcrustc" ∧
    resolveIdentity "rustc" (some "(mrustc)") = resolveIdentity "rustc" none :=
  ⟨(identity_override_compares_tail_after_first_byte.1 "rustc" "(mrustc").1
     (by decide),
   (identity_override_compares_tail_after_first_byte.1 "rustc" "(lccc").2.1
     (by decide),
   (identity_override_compares_tail_after_first_byte.1 "rustc"
     "(mrustc)").2.2 (by decide) (by decide)⟩

/-- C8: every cross-compiling session leaves a trace with no produced-binary
execution, whatever the world does; and when not cross-compiling the produced
binary is executed and required to exit zero — in `worldRunFails` the failing
run yields the Unsupported error naming the compiler while the binary's run
is in the trace, and the same world with the flag set succeeds without any
run. -/
theorem cross_compiling_never_runs_produced_binary :
    (∀ w var fv t d,
      noRunEvents (findCompiler w var fv t true d).2 = true) ∧
    (findCompiler worldRunFails "RUSTC" "RUSTFLAGS" hostTarget false
        "/tmp").1 =
      some (.err ⟨.unsupported,
        "Cannot execute binaries produced by /usr/bin/rustc"⟩) ∧
    Event.runBinary "/tmp/comptest" ∈
      (findCompiler worldRunFails "RUSTC" "RUSTFLAGS" hostTarget false
        "/tmp").2 ∧
    ((findCompiler worldRunFails "RUSTC" "RUSTFLAGS" hostTarget true
        "/tmp").1).map (RRes.map RustcTestsResult.no_std) =
      some (.ok false) :=
  ⟨fun w var fv t d => findCompiler_cross_noRun w var fv t d,
   by decide, by decide, by decide⟩

/-- C9: `find_rustc_target` unwraps `rustc.file_name()`: a compiler path with
no file-name component (ending in `".."`, or a root path) panics — modelled
as the `none` result — before any effect is performed, while any path with a
file name never reaches that panic. -/
theorem find_rustc_target_panics_without_file_name :
    (∀ w flags file t rustc, pathFileName rustc = none →
      findRustcTarget w rustc flags file t = (none, [])) ∧
    (∀ w flags file t rustc s, pathFileName rustc = some s →
      (findRustcTarget w rustc flags file t).1 ≠ none) := by
  constructor
  · intro w flags file t rustc h
    simp [findRustcTarget, h]
  · intro w flags file t rustc s h
    simp only [findRustcTarget, h]
    repeat' split
    all_goals simp

/-- Witness for C9 at the paths `"/opt/.."` and `"/usr/bin/rustc"`. -/
theorem find_rustc_target_panics_witness :
    pathFileName "/opt/.." = none ∧
    findRustcTarget worldAllFail "/opt/.." "-O -g" "/f.rs" pcTarget =
      (none, []) ∧
    pathFileName "/usr/bin/rustc" = some "rustc" ∧
    (findRustcTarget worldAllFail "/usr/bin/rustc" "-O -g" "/f.rs"
        pcTarget).1 ≠ none :=
  ⟨by decide,
   find_rustc_target_panics_without_file_name.1 worldAllFail "-O -g" "/f.rs"
     pcTarget "/opt/.." (by decide),
   by decide,
   find_rustc_target_panics_without_file_name.2 worldAllFail "-O -g" "/f.rs"
     pcTarget "/usr/bin/rustc" "rustc" (by decide)⟩

/-- C10: a present but non-Unicode extra-flags variable fails the whole
session immediately with InvalidData and an empty effect trace — no
filesystem access, no compiler located, no process spawned; the default
`"-O -g"` applies exactly when the variable is absent, and a present Unicode
value is taken verbatim. -/
theorem nonunicode_flags_var_fails_before_any_effect :
    (∀ w var fv t cross d s, w.env fv = EnvVal.notUnicode s →
      findCompiler w var fv t cross d =
        (some (.err ⟨.invalidData,
           "environment variable was not valid unicode"⟩), [])) ∧
    flagsLookup .absent = .ok "-O -g" ∧
    (∀ s, flagsLookup (.str s) = .ok s) := by
  refine ⟨fun w var fv t cross d s h => ?_, rfl, fun s => rfl⟩
  simp [findCompiler, flagsLookup, h]

/-- Witness for C10 in the session `worldBadFlags`. -/
theorem nonunicode_flags_var_witness :
    worldBadFlags.env "RUSTFLAGS" = EnvVal.notUnicode "bad" ∧
    findCompiler worldBadFlags "RUSTC" "RUSTFLAGS" hostTarget false "/tmp" =
      (some (.err ⟨.invalidData,
         "environment variable was not valid unicode"⟩), []) :=
  ⟨rfl,
   nonunicode_flags_var_fails_before_any_effect.1 worldBadFlags "RUSTC"
     "RUSTFLAGS" hostTarget false "/tmp" "bad" rfl⟩

end Autobuild
